import Mathlib

/-
Verification of src/packages/liblsl/src/include/lsl_lib_version.h.

The header is eight lines of C preprocessor text:

  #ifndef LSL_LIBRARY_INFO_STR
  #define MSTR_EXPAND(tok) #tok
  #define MSTR(tok) MSTR_EXPAND(tok)

  #define LSL_LIBTYPE_DART link:SHARED
  // Concatenate strings without space, using proper formatting of /
  #define LSL_LIBRARY_INFO_STR MSTR(LSL_VERSION_INFO) "/" MSTR(LSL_LIBTYPE_DART)
  #endif

We embed the relevant fragment of the C preprocessor shallowly:

  * an object-like macro environment maps a name to its replacement text
    (`none` when the name is not defined);
  * stringification of an argument (the `#tok` operator) yields the spelled
    text of the argument, which we represent directly as the contents of the
    resulting string literal;
  * in `MSTR(tok)`, the argument `tok` is not adjacent to `#` or `##`, so it
    is macro-expanded before being substituted into `MSTR_EXPAND`; an
    identifier that is a defined object-like macro is replaced by its
    replacement text, and an undefined identifier stands for itself (the
    preprocessor does not fail on an undefined identifier in this position);
  * adjacent string literals are concatenated by translation phase 6, so a
    use of `LSL_LIBRARY_INFO_STR` denotes the single literal obtained by
    concatenating the three pieces;
  * the whole file is guarded by `#ifndef LSL_LIBRARY_INFO_STR`, so
    processing the header either leaves the environment untouched (guard
    already defined) or adds the four definitions.
-/

namespace LslLibVersion

/-- An object-like macro environment: each macro name is mapped to its
replacement text, and `none` means the name is not defined. -/
def Env : Type := String → Option String

/-- Embedding of line 2, `#define MSTR_EXPAND(tok) #tok`: stringification
yields the spelled text of the argument. -/
def MSTR_EXPAND (tok : String) : String := tok

/-- Expansion of a single identifier under an environment: a defined
object-like macro is replaced by its replacement text; an undefined
identifier stands for itself (no error is raised). -/
def expandTok (env : Env) (tok : String) : String := (env tok).getD tok

/-- Embedding of line 3, `#define MSTR(tok) MSTR_EXPAND(tok)`: the argument
is macro-expanded before substitution, so the stringification applies to the
expansion of the token, not to the token's own spelling. -/
def MSTR (env : Env) (tok : String) : String := MSTR_EXPAND (expandTok env tok)

/-- Replacement text of line 5, `#define LSL_LIBTYPE_DART link:SHARED`. -/
def LSL_LIBTYPE_DART : String := "link:SHARED"

/-- Value denoted by a use of `LSL_LIBRARY_INFO_STR` under an environment:
line 7 makes it `MSTR(LSL_VERSION_INFO) "/" MSTR(LSL_LIBTYPE_DART)`, and
adjacent string literals concatenate. -/
def LSL_LIBRARY_INFO_STR (env : Env) : String :=
  MSTR env "LSL_VERSION_INFO" ++ "/" ++ MSTR env "LSL_LIBTYPE_DART"

/-- The formatter pattern of line 7 with the two tokens as parameters:
`MSTR(vtok) "/" MSTR(ttok)`, adjacent literals concatenated. -/
def libraryInfoFmt (env : Env) (vtok ttok : String) : String :=
  MSTR env vtok ++ "/" ++ MSTR env ttok

/-- Effect of processing the header on a macro environment: the file is
guarded by `#ifndef LSL_LIBRARY_INFO_STR` (lines 1 and 8); when the guard
passes, lines 2, 3, 5 and 7 define the four macros and everything else is
left as it was. -/
def includeHeader (env : Env) : Env :=
  if (env "LSL_LIBRARY_INFO_STR").isSome then env
  else fun n =>
    if n = "MSTR_EXPAND" then some "#tok"
    else if n = "MSTR" then some "MSTR_EXPAND(tok)"
    else if n = "LSL_LIBTYPE_DART" then some LSL_LIBTYPE_DART
    else if n = "LSL_LIBRARY_INFO_STR" then
      some "MSTR(LSL_VERSION_INFO) \"/\" MSTR(LSL_LIBTYPE_DART)"
    else env n

/-- The empty environment: no macro is defined. -/
def emptyEnv : Env := fun _ => none

/-- Concrete environment defining only `LSL_VERSION_INFO` as `1.2.3`, the
configuration the build system would supply. -/
def env123 : Env := fun n => if n = "LSL_VERSION_INFO" then some "1.2.3" else none

/-- Concrete environment mapping the version token to `1.2.3` and the
link-type token to `SHARED`. -/
def envVT : Env := fun n =>
  if n = "LSL_VERSION_INFO" then some "1.2.3"
  else if n = "LSL_LIBTYPE_DART" then some "SHARED"
  else none

/-- Concrete environment mapping the version token to `1.2.3` and the
link-type token to the empty replacement text. -/
def envEmptyLink : Env := fun n =>
  if n = "LSL_VERSION_INFO" then some "1.2.3"
  else if n = "LSL_LIBTYPE_DART" then some ""
  else none

/-- Concrete environment equal to `envVT` on the two tokens but defining an
unrelated extra macro. -/
def envVTExtra : Env := fun n =>
  if n = "LSL_VERSION_INFO" then some "1.2.3"
  else if n = "LSL_LIBTYPE_DART" then some "SHARED"
  else if n = "UNRELATED" then some "junk"
  else none

/-- Concrete environment in which `LSL_LIBRARY_INFO_STR` is already defined
before the header is processed. -/
def envPre : Env := fun n =>
  if n = "LSL_LIBRARY_INFO_STR" then some "PREDEF" else none

/-- Helper: after a guarded inclusion, `LSL_LIBTYPE_DART` is defined with
replacement text `link:SHARED`. -/
theorem includeHeader_libtype (env : Env)
    (hg : env "LSL_LIBRARY_INFO_STR" = none) :
    includeHeader env "LSL_LIBTYPE_DART" = some "link:SHARED" := by
  simp [includeHeader, hg, LSL_LIBTYPE_DART]

/-- C1: for every version token mapped to `V` and link-type token mapped to
`T`, the formatter pattern produces exactly the string `V/T` — stringified
`V`, a single `/`, then stringified `T` — with no extra characters and no
surrounding whitespace. -/
theorem libraryInfoFmt_eq_slash_join (env : Env) (vtok ttok V T : String)
    (hv : env vtok = some V) (ht : env ttok = some T) :
    libraryInfoFmt env vtok ttok = V ++ "/" ++ T := by
  simp [libraryInfoFmt, MSTR, MSTR_EXPAND, expandTok, hv, ht]

/-- Witness for C1 at the concrete environment `envVT`. -/
theorem libraryInfoFmt_eq_slash_join_witness :
    libraryInfoFmt envVT "LSL_VERSION_INFO" "LSL_LIBTYPE_DART" =
      "1.2.3" ++ "/" ++ "SHARED" :=
  libraryInfoFmt_eq_slash_join envVT "LSL_VERSION_INFO" "LSL_LIBTYPE_DART"
    "1.2.3" "SHARED" (by decide) (by decide)

/-- C2: whenever the header's guard passes, the portion of
`LSL_LIBRARY_INFO_STR` after the `/` separator is the fixed string
`link:SHARED` (the stringification of the expansion of `LSL_LIBTYPE_DART`),
for every external environment, hence independent of any build parameter. -/
theorem LSL_LIBRARY_INFO_STR_linktype_fixed (env : Env)
    (hg : env "LSL_LIBRARY_INFO_STR" = none) :
    LSL_LIBRARY_INFO_STR (includeHeader env) =
      MSTR (includeHeader env) "LSL_VERSION_INFO" ++ "/" ++ "link:SHARED" := by
  simp [LSL_LIBRARY_INFO_STR, MSTR, MSTR_EXPAND, expandTok,
    includeHeader_libtype env hg]

/-- Witness for C2 at the empty environment. -/
theorem LSL_LIBRARY_INFO_STR_linktype_fixed_witness :
    LSL_LIBRARY_INFO_STR (includeHeader emptyEnv) =
      MSTR (includeHeader emptyEnv) "LSL_VERSION_INFO" ++ "/" ++ "link:SHARED" :=
  LSL_LIBRARY_INFO_STR_linktype_fixed emptyEnv (by decide)

/-- C3 counterexample: in the provided fragment, setting `LSL_VERSION_INFO`
to `1.2.3` does NOT yield `"1.2.3/SHARED"`: the hard-coded link-type token
`LSL_LIBTYPE_DART` expands to `link:SHARED`, so the constant is
`"1.2.3/link:SHARED"`. -/
theorem LSL_LIBRARY_INFO_STR_123_ne_spec :
    LSL_LIBRARY_INFO_STR (includeHeader env123) ≠ "1.2.3/SHARED" := by
  decide

/-- C3 amended: the generic examples hold — version token `1.2.3` with
link-type token `SHARED` yields `"1.2.3/SHARED"`, and `0.0.0-dev` with
`STATIC` yields `"0.0.0-dev/STATIC"` — while the fragment itself, with
`LSL_VERSION_INFO` set to `1.2.3`, yields `"1.2.3/link:SHARED"`. -/
theorem libraryInfoFmt_examples :
    libraryInfoFmt emptyEnv "1.2.3" "SHARED" = "1.2.3/SHARED" ∧
    libraryInfoFmt emptyEnv "0.0.0-dev" "STATIC" = "0.0.0-dev/STATIC" ∧
    LSL_LIBRARY_INFO_STR (includeHeader env123) = "1.2.3/link:SHARED" := by
  refine ⟨by decide, by decide, by decide⟩

/-- C4 counterexample: with the version token left undefined, producing
`LSL_LIBRARY_INFO_STR` does not fail — stringification of the undefined
identifier yields its own spelling, so the constant is the well-defined
string `"LSL_VERSION_INFO/link:SHARED"`. -/
theorem LSL_LIBRARY_INFO_STR_undefined_no_failure :
    LSL_LIBRARY_INFO_STR (includeHeader emptyEnv) =
      "LSL_VERSION_INFO/link:SHARED" := by
  decide

/-- C4 amended: if the version token is undefined, the build does not fail;
the undefined token is stringified as its own name and the constant is still
produced (production is total, so there is no runtime error path and no
other failure mode). -/
theorem LSL_LIBRARY_INFO_STR_total_on_undefined (env : Env)
    (hg : env "LSL_LIBRARY_INFO_STR" = none)
    (hv : env "LSL_VERSION_INFO" = none) :
    LSL_LIBRARY_INFO_STR (includeHeader env) =
      "LSL_VERSION_INFO" ++ "/" ++ "link:SHARED" := by
  have h1 : includeHeader env "LSL_VERSION_INFO" = none := by
    simp [includeHeader, hg, hv]
  simp [LSL_LIBRARY_INFO_STR, MSTR, MSTR_EXPAND, expandTok, h1,
    includeHeader_libtype env hg]

/-- Witness for the amended C4 at the empty environment. -/
theorem LSL_LIBRARY_INFO_STR_total_on_undefined_witness :
    LSL_LIBRARY_INFO_STR (includeHeader emptyEnv) =
      "LSL_VERSION_INFO" ++ "/" ++ "link:SHARED" :=
  LSL_LIBRARY_INFO_STR_total_on_undefined emptyEnv (by decide) (by decide)

/-- C5: when the link-type token expands to the empty replacement text and
the version token expands to `V`, the formatter yields `V/` — the separator
is present, the second field is empty, and no error occurs. -/
theorem libraryInfoFmt_empty_linktype (env : Env) (vtok ttok V : String)
    (hv : env vtok = some V) (ht : env ttok = some "") :
    libraryInfoFmt env vtok ttok = V ++ "/" := by
  simp [libraryInfoFmt, MSTR, MSTR_EXPAND, expandTok, hv, ht]

/-- Witness for C5 at the concrete environment `envEmptyLink`. -/
theorem libraryInfoFmt_empty_linktype_witness :
    libraryInfoFmt envEmptyLink "LSL_VERSION_INFO" "LSL_LIBTYPE_DART" =
      "1.2.3" ++ "/" :=
  libraryInfoFmt_empty_linktype envEmptyLink "LSL_VERSION_INFO"
    "LSL_LIBTYPE_DART" "1.2.3" (by decide) (by decide)

/-- C6: the formatting is pure and deterministic — the result depends on
nothing but the two tokens' definitions, so any two environments agreeing on
the two tokens yield identical strings; in particular re-evaluation on the
same tokens yields an identical string. -/
theorem libraryInfoFmt_deterministic (env env' : Env) (vtok ttok : String)
    (hv : env vtok = env' vtok) (ht : env ttok = env' ttok) :
    libraryInfoFmt env vtok ttok = libraryInfoFmt env' vtok ttok := by
  simp [libraryInfoFmt, MSTR, MSTR_EXPAND, expandTok, hv, ht]

/-- Witness for C6: the environments `envVT` and `envVTExtra` differ on an
unrelated macro yet agree on the two tokens, and the results coincide. -/
theorem libraryInfoFmt_deterministic_witness :
    libraryInfoFmt envVT "LSL_VERSION_INFO" "LSL_LIBTYPE_DART" =
      libraryInfoFmt envVTExtra "LSL_VERSION_INFO" "LSL_LIBTYPE_DART" :=
  libraryInfoFmt_deterministic envVT envVTExtra "LSL_VERSION_INFO"
    "LSL_LIBTYPE_DART" (by decide) (by decide)

/-- C7: processing the header introduces the definitions `MSTR_EXPAND`,
`MSTR`, `LSL_LIBTYPE_DART` and `LSL_LIBRARY_INFO_STR` (when the guard
passes) and leaves every other definition unchanged. -/
theorem includeHeader_introduces_and_frames (env : Env) :
    (∀ n : String, n ≠ "MSTR_EXPAND" → n ≠ "MSTR" → n ≠ "LSL_LIBTYPE_DART" →
      n ≠ "LSL_LIBRARY_INFO_STR" → includeHeader env n = env n) ∧
    (env "LSL_LIBRARY_INFO_STR" = none →
      includeHeader env "MSTR_EXPAND" = some "#tok" ∧
      includeHeader env "MSTR" = some "MSTR_EXPAND(tok)" ∧
      includeHeader env "LSL_LIBTYPE_DART" = some "link:SHARED" ∧
      (includeHeader env "LSL_LIBRARY_INFO_STR").isSome) := by
  constructor
  · intro n h1 h2 h3 h4
    by_cases hg : (env "LSL_LIBRARY_INFO_STR").isSome
    · simp [includeHeader, hg]
    · simp [includeHeader, hg, h1, h2, h3, h4]
  · intro hg
    refine ⟨?_, ?_, includeHeader_libtype env hg, ?_⟩ <;>
      simp [includeHeader, hg]

/-- Witness for C7 at the empty environment: an unrelated name stays
undefined while the four macros become defined. -/
theorem includeHeader_introduces_and_frames_witness :
    includeHeader emptyEnv "UNRELATED" = none ∧
    includeHeader emptyEnv "MSTR" = some "MSTR_EXPAND(tok)" := by
  have h := includeHeader_introduces_and_frames emptyEnv
  exact ⟨(h.1 "UNRELATED" (by decide) (by decide) (by decide)
    (by decide)).trans rfl, (h.2 rfl).2.1⟩

/-- C8: stringification goes through the two-level macro, so `MSTR` applied
to a token that is itself a defined macro yields the stringification of that
macro's expansion (the quoted expansion text, not the quoted macro name). -/
theorem MSTR_stringifies_expansion (env : Env) (t r : String)
    (h : env t = some r) :
    MSTR env t = MSTR_EXPAND r ∧ (r ≠ t → MSTR env t ≠ t) := by
  constructor
  · simp [MSTR, expandTok, h]
  · intro hne
    simp [MSTR, MSTR_EXPAND, expandTok, h, hne]

/-- Witness for C8: after inclusion, `MSTR(LSL_LIBTYPE_DART)` yields
`"link:SHARED"`, not `"LSL_LIBTYPE_DART"`. -/
theorem MSTR_stringifies_expansion_witness :
    MSTR (includeHeader emptyEnv) "LSL_LIBTYPE_DART" = "link:SHARED" ∧
    MSTR (includeHeader emptyEnv) "LSL_LIBTYPE_DART" ≠ "LSL_LIBTYPE_DART" := by
  have h := MSTR_stringifies_expansion (includeHeader emptyEnv)
    "LSL_LIBTYPE_DART" "link:SHARED" (by decide)
  exact ⟨h.1, h.2 (by decide)⟩

/-- C9: inclusion is idempotent and non-clobbering — if
`LSL_LIBRARY_INFO_STR` is already defined the header changes nothing, and
including the file twice is the same as including it once. -/
theorem includeHeader_idempotent (env : Env) :
    includeHeader (includeHeader env) = includeHeader env ∧
    (∀ s : String, env "LSL_LIBRARY_INFO_STR" = some s →
      includeHeader env = env) := by
  have noclob : ∀ e : Env, (e "LSL_LIBRARY_INFO_STR").isSome →
      includeHeader e = e := by
    intro e he
    simp [includeHeader, he]
  constructor
  · by_cases hg : (env "LSL_LIBRARY_INFO_STR").isSome
    · rw [noclob env hg, noclob env hg]
    · apply noclob
      have hgn : env "LSL_LIBRARY_INFO_STR" = none := by
        cases h : env "LSL_LIBRARY_INFO_STR" with
        | none => rfl
        | some s => exact absurd (by simp [h]) hg
      simp [includeHeader, hgn]
  · intro s hs
    exact noclob env (by simp [hs])

/-- Witness for C9: double inclusion on the empty environment equals single
inclusion, and inclusion on an environment that predefines the guard macro
is the identity. -/
theorem includeHeader_idempotent_witness :
    includeHeader (includeHeader emptyEnv) = includeHeader emptyEnv ∧
    includeHeader envPre = envPre :=
  ⟨(includeHeader_idempotent emptyEnv).1,
    (includeHeader_idempotent envPre).2 "PREDEF" (by decide)⟩

end LslLibVersion
